import Mathlib

/-!
Verification of the PumpChatClient protocol core (src/server/utils/pumpchat.ts).

The client is embedded shallowly: JSON values are an inductive type, JSON.parse
is a fuel-based recursive-descent parser over the character list of the input,
and the client's mutable fields become a `ClientState` record threaded through
pure handler functions that also return the frames written to the transport,
the events emitted to consumers, and the reconnect delays scheduled via
setTimeout.  A thrown JavaScript exception that escapes a frame handler is an
`Except.error`.
-/

namespace PumpChat

/-- Runtime JSON values, as produced by JSON.parse.  Numbers are modelled as
integers: every numeric literal in the protocol's frames is an integer. -/
inductive Json where
  | null : Json
  | bool (b : Bool) : Json
  | num (n : Int) : Json
  | str (s : String) : Json
  | arr (elems : List Json) : Json
  | obj (fields : List (String × Json)) : Json

/-- JavaScript truthiness of a JSON value: null, false, 0 and "" are falsy;
every array and object (even empty) is truthy. -/
def truthy : Json → Bool
  | .null => false
  | .bool b => b
  | .num n => n != 0
  | .str s => s ≠ ""
  | .arr _ => true
  | .obj _ => true

/-- Truthiness of a possibly-undefined value (`none` models `undefined`). -/
def truthyOpt : Option Json → Bool
  | none => false
  | some j => truthy j

/-- JavaScript property lookup `v.k` for a non-index key, yielding `none` for
`undefined`.  Only objects carry such properties; arrays, strings and
primitives yield `undefined` for the keys the client uses. -/
def jsProp (j : Json) (k : String) : Option Json :=
  match j with
  | .obj fields => (fields.find? (fun f => f.1 == k)).map (fun f => f.2)
  | _ => none

/-- Property lookup through a possibly-undefined receiver; the client only
evaluates `x.k` behind an `x && x.k` truthiness guard, so the undefined
receiver case is never a thrown TypeError on the paths modelled here. -/
def jsPropOpt (o : Option Json) (k : String) : Option Json :=
  o.bind (fun j => jsProp j k)

/-- JavaScript `v[0]`: first element of an array, property "0" of an object,
first character of a nonempty string, `undefined` otherwise. -/
def jsIndex0 : Json → Option Json
  | .arr (x :: _) => some x
  | .arr [] => none
  | .obj fields => (fields.find? (fun f => f.1 == "0")).map (fun f => f.2)
  | .str s => if s.isEmpty then none else some (.str (s.take 1))
  | _ => none

/-- `Array.isArray`. -/
def isArr : Json → Bool
  | .arr _ => true
  | _ => false

/-- `Array.isArray(x)` through a possibly-undefined value. -/
def isArrOpt : Option Json → Bool
  | some (.arr _) => true
  | _ => false

/-- `Array.isArray(x) && x.length > 0`. -/
def isNonEmptyArr : Json → Bool
  | .arr (_ :: _) => true
  | _ => false

/- ### JSON.parse, as a fuel-based recursive-descent parser.
Covers the JSON fragment the protocol exchanges: null, true, false, integer
numbers, strings with the single-character escapes, arrays and objects, with
interstitial whitespace.  (Fractional numbers and \u escapes do not occur in
any frame the client builds or any claim considers.) -/

/-- Decimal digit test on a character. -/
def isDigitChar (c : Char) : Bool := 48 ≤ c.toNat && c.toNat ≤ 57

/-- JSON whitespace test. -/
def isWsChar (c : Char) : Bool :=
  c = ' ' || c = '\t' || c = '\n' || c = '\r'

/-- Skip leading JSON whitespace. -/
def skipWs : List Char → List Char
  | [] => []
  | c :: cs => if isWsChar c then skipWs cs else c :: cs

/-- Value of one escape character after a backslash in a JSON string literal;
`none` for escapes outside the modelled fragment. -/
def escChar (c : Char) : Option Char :=
  if c = '"' then some '"'
  else if c = '\\' then some '\\'
  else if c = '/' then some '/'
  else if c = 'n' then some '\n'
  else if c = 't' then some '\t'
  else if c = 'r' then some '\r'
  else if c = 'b' then some (Char.ofNat 8)
  else if c = 'f' then some (Char.ofNat 12)
  else none

/-- Parse the body of a JSON string literal (the opening quote already
consumed), returning the decoded characters and the rest of the input. -/
def parseStrBody : List Char → Option (List Char × List Char)
  | [] => none
  | c :: cs =>
    if c = '"' then some ([], cs)
    else if c = '\\' then
      match cs with
      | [] => none
      | e :: cs' =>
        match escChar e with
        | none => none
        | some d =>
          match parseStrBody cs' with
          | none => none
          | some (body, rest) => some (d :: body, rest)
    else
      match parseStrBody cs with
      | none => none
      | some (body, rest) => some (c :: body, rest)

/-- Cumulative value of a run of decimal digits. -/
def digitsVal (acc : Nat) : List Char → Nat × List Char
  | [] => (acc, [])
  | c :: cs =>
    if isDigitChar c then digitsVal (acc * 10 + (c.toNat - 48)) cs
    else (acc, c :: cs)

/-- Whether a list of characters starts with the given prefix; on success
returns the remainder. -/
def dropLit : List Char → List Char → Option (List Char)
  | [], cs => some cs
  | _, [] => none
  | p :: ps, c :: cs => if p = c then dropLit ps cs else none

mutual

/-- Parse one JSON value; fuel bounds recursion depth. -/
def parseV : Nat → List Char → Option (Json × List Char)
  | 0, _ => none
  | fuel + 1, input =>
    match skipWs input with
    | [] => none
    | c :: cs =>
      if c = 'n' then
        (dropLit ['u', 'l', 'l'] cs).map (fun rest => (Json.null, rest))
      else if c = 't' then
        (dropLit ['r', 'u', 'e'] cs).map (fun rest => (Json.bool true, rest))
      else if c = 'f' then
        (dropLit ['a', 'l', 's', 'e'] cs).map (fun rest => (Json.bool false, rest))
      else if c = '"' then
        (parseStrBody cs).map (fun p => (Json.str (String.mk p.1), p.2))
      else if c = '[' then
        match skipWs cs with
        | ']' :: rest => some (Json.arr [], rest)
        | cs' => (parseItems fuel cs').map (fun p => (Json.arr p.1, p.2))
      else if c = Char.ofNat 123 then
        match skipWs cs with
        | c' :: rest =>
          if c' = Char.ofNat 125 then some (Json.obj [], rest)
          else (parseFields fuel (c' :: rest)).map (fun p => (Json.obj p.1, p.2))
        | [] => none
      else if c = '-' then
        match cs with
        | d :: ds =>
          if isDigitChar d then
            let p := digitsVal (d.toNat - 48) ds
            some (Json.num (-(p.1 : Int)), p.2)
          else none
        | [] => none
      else if isDigitChar c then
        let p := digitsVal (c.toNat - 48) cs
        some (Json.num (p.1 : Int), p.2)
      else none

/-- Parse the comma-separated elements of a nonempty JSON array, up to and
including the closing bracket. -/
def parseItems : Nat → List Char → Option (List Json × List Char)
  | 0, _ => none
  | fuel + 1, input =>
    match parseV fuel input with
    | none => none
    | some (v, rest) =>
      match skipWs rest with
      | ',' :: rest' =>
        (parseItems fuel rest').map (fun p => (v :: p.1, p.2))
      | ']' :: rest' => some ([v], rest')
      | _ => none

/-- Parse the comma-separated members of a nonempty JSON object, up to and
including the closing brace. -/
def parseFields : Nat → List Char → Option (List (String × Json) × List Char)
  | 0, _ => none
  | fuel + 1, input =>
    match skipWs input with
    | '"' :: cs =>
      match parseStrBody cs with
      | none => none
      | some (key, rest) =>
        match skipWs rest with
        | ':' :: rest' =>
          match parseV fuel rest' with
          | none => none
          | some (v, rest'') =>
            match skipWs rest'' with
            | ',' :: rest''' =>
              (parseFields fuel rest''').map
                (fun p => ((String.mk key, v) :: p.1, p.2))
            | c :: rest''' =>
              if c = Char.ofNat 125 then some ([(String.mk key, v)], rest''')
              else none
            | [] => none
        | _ => none
    | _ => none

end

/-- `JSON.parse`: parse a whole string as one JSON value, requiring the input
to be fully consumed up to trailing whitespace.  `none` is a SyntaxError. -/
def parseJson (s : String) : Option Json :=
  match parseV (2 * s.length + 4) s.data with
  | none => none
  | some (v, rest) => if skipWs rest = [] then some v else none

end PumpChat

namespace PumpChat

/- ### Client state and outputs -/

/-- One pending acknowledgment entry: the logical request kind and the
Date.now() instant at which it was recorded. -/
structure PendingAck where
  event : String
  timestamp : Nat

/-- Events the client emits to its consumers (EventEmitter.emit calls).
`disconnected none` is the bare emission from the transport close handler;
`disconnected (some p)` carries the reason object built by the 41 handler. -/
inductive Ev where
  | connected
  | disconnected (payload : Option Json)
  | message (m : Json)
  | messageHistory (h : Json)
  | userLeft (p : Json)
  | serverError (e : Json)
  | error (e : String)
  | tryReconnect
  | maxReconnectAttemptsReached

/-- The client's mutable fields.  `messageHistory` is the runtime value of the
field: the TypeScript type is IMessage[], but the 43-handler can assign any
parsed JSON value to it, so it is a `Json`, normally an `arr`.
`connectionOpen` models `this.connection !== null`; `pingIntervalActive`
models the keepalive interval timer (`some v` when running with interval
value `v`). -/
structure ClientState where
  roomId : String
  username : String
  messageHistoryLimit : Nat
  messageHistory : Json
  isConnected : Bool
  connectionOpen : Bool
  pingIntervalActive : Option Json
  reconnectAttempts : Nat
  ackId : Nat
  pendingAcks : List (Nat × PendingAck)

/-- Observable side effects of one handler run: frames written to the
transport (connection.sendUTF), events emitted, and reconnect delays passed
to setTimeout. -/
structure Out where
  frames : List String
  events : List Ev
  scheduled : List Nat

/-- No side effects. -/
def Out.empty : Out := ⟨[], [], []⟩

/-- Side effects of two consecutive handler runs. -/
def Out.app (a b : Out) : Out :=
  ⟨a.frames ++ b.frames, a.events ++ b.events, a.scheduled ++ b.scheduled⟩

/-- Maximum number of reconnection attempts before giving up. -/
def maxReconnectAttempts : Nat := 5

/-- TTL for pending acknowledgments (30 seconds, in ms). -/
def ackTimeoutMs : Nat := 30000

/-- Period of the stale-acknowledgment cleanup timer (10 seconds, in ms). -/
def cleanupIntervalMs : Nat := 10000

/- ### Correlator table operations (a JS Map keyed by ack ID) -/

/-- `pendingAcks.set(id, v)`: replaces any entry under the same key. -/
def setAck (table : List (Nat × PendingAck)) (id : Nat) (ev : String)
    (ts : Nat) : List (Nat × PendingAck) :=
  (id, ⟨ev, ts⟩) :: table.filter (fun e => e.1 ≠ id)

/-- `pendingAcks.get(id)`. -/
def getAck (table : List (Nat × PendingAck)) (id : Nat) : Option PendingAck :=
  (table.find? (fun e => e.1 == id)).map (fun e => e.2)

/-- `pendingAcks.delete(id)`. -/
def delAck (table : List (Nat × PendingAck)) (id : Nat) :
    List (Nat × PendingAck) :=
  table.filter (fun e => e.1 ≠ id)

/-- cleanupStaleAcks: delete every entry with `now - timestamp > 30000`,
keep the rest. -/
def cleanupStaleAcks (now : Nat) (table : List (Nat × PendingAck)) :
    List (Nat × PendingAck) :=
  table.filter (fun e => decide (now - e.2.timestamp ≤ ackTimeoutMs))

/- ### Frame construction and the transport write guard -/

/-- send(data): writes only when the connection reference is non-null and
isConnected; otherwise only logs. -/
def sendFrames (s : ClientState) (d : String) : List String :=
  if s.connectionOpen && s.isConnected then [d] else []

/-- The outbound handshake frame built in handleConnect. -/
def handshakeFrame (now : Nat) : String :=
  "40\x7b\"origin\":\"https://pump.fun\",\"timestamp\":" ++ toString now ++
    ",\"token\":null\x7d"

/-- The outbound joinRoom frame. -/
def joinRoomFrame (s : ClientState) (id : Nat) : String :=
  "42" ++ toString id ++ "[\"joinRoom\",\x7b\"roomId\":\"" ++ s.roomId ++
    "\",\"username\":\"" ++ s.username ++ "\"\x7d]"

/-- The outbound getMessageHistory frame. -/
def historyFrame (s : ClientState) (id : Nat) : String :=
  "42" ++ toString id ++ "[\"getMessageHistory\",\x7b\"roomId\":\"" ++
    s.roomId ++ "\",\"before\":null,\"limit\":" ++
    toString s.messageHistoryLimit ++ "\x7d]"

/-- The outbound sendMessage frame. -/
def sendMessageFrame (s : ClientState) (id : Nat) (text : String) : String :=
  "42" ++ toString id ++ "[\"sendMessage\",\x7b\"roomId\":\"" ++ s.roomId ++
    "\",\"message\":\"" ++ text ++ "\",\"username\":\"" ++ s.username ++
    "\"\x7d]"

/- ### Handlers -/

/-- requestMessageHistory: allocate the next cyclic ack ID, record the
pending getMessageHistory entry, send the request frame. -/
def requestMessageHistory (s : ClientState) (now : Nat) : ClientState × Out :=
  let id := s.ackId
  let s1 := { s with ackId := (s.ackId + 1) % 10,
                     pendingAcks := setAck s.pendingAcks id "getMessageHistory" now }
  (s1, ⟨sendFrames s1 (historyFrame s id), [], []⟩)

/-- attemptReconnect: below the attempt cap, increment the counter, emit
tryReconnect and schedule connect() after min(1000 * 2^attempts, 30000) ms;
at the cap, emit maxReconnectAttemptsReached and schedule nothing. -/
def attemptReconnect (s : ClientState) : ClientState × Out :=
  if s.reconnectAttempts < maxReconnectAttempts then
    let s1 := { s with reconnectAttempts := s.reconnectAttempts + 1 }
    let delay := min (1000 * 2 ^ s1.reconnectAttempts) 30000
    (s1, ⟨[], [.tryReconnect], [delay]⟩)
  else
    (s, ⟨[], [.maxReconnectAttemptsReached], []⟩)

/-- handleConnect (prefix 0): JSON.parse of the payload is NOT wrapped in
try/catch, so a malformed payload throws out of the handler (`Except.error`).
On success, a truthy pingInterval starts the keepalive timer, then the
handshake frame is sent. -/
def handleConnect (s : ClientState) (data : String) (now : Nat) :
    Except String (ClientState × Out) :=
  match parseJson (data.drop 1) with
  | none => .error "SyntaxError: Unexpected token in JSON"
  | some connectData =>
    let s1 := if truthyOpt (jsProp connectData "pingInterval") then
                { s with pingIntervalActive := jsProp connectData "pingInterval" }
              else s
    .ok (s1, ⟨sendFrames s1 (handshakeFrame now), [], []⟩)

/-- handleConnectedAck (prefix 40): allocate an ack ID, record the pending
joinRoom entry, send the joinRoom frame.  The frame's payload is ignored. -/
def handleConnectedAck (s : ClientState) (now : Nat) : ClientState × Out :=
  let id := s.ackId
  let s1 := { s with ackId := (s.ackId + 1) % 10,
                     pendingAcks := setAck s.pendingAcks id "joinRoom" now }
  (s1, ⟨sendFrames s1 (joinRoomFrame s id), [], []⟩)

/-- The disconnect reason extracted by the 41 handler (parse failures fall
back to the default reason). -/
def disconnectReason (data : String) : Json :=
  let dflt := Json.str "Server initiated disconnect"
  let d := data.drop 2
  if d = "" then dflt
  else
    match parseJson d with
    | none => dflt
    | some parsed =>
      if truthy parsed then
        match parsed with
        | .str r => .str r
        | _ =>
          match jsProp parsed "reason" with
          | some r => if truthy r then r else dflt
          | none => dflt
      else dflt

/-- handleDisconnect (prefix 41): regardless of the payload, mark the client
disconnected, stop the keepalive timer, emit disconnected with a reason
object, and run attemptReconnect. -/
def handleDisconnectF (s : ClientState) (data : String) : ClientState × Out :=
  let reason := disconnectReason data
  let s1 := { s with isConnected := false, connectionOpen := false,
                     pingIntervalActive := none }
  let p := attemptReconnect s1
  (p.1, ⟨p.2.frames,
         Ev.disconnected (some (Json.obj [("reason", reason)])) :: p.2.events,
         p.2.scheduled⟩)

/-- handleNewMessage: push the message, then evict the single oldest entry
when the buffer exceeds the capacity. -/
def pushMessage (limit : Nat) (hist : List Json) (m : Json) : List Json :=
  let h := hist ++ [m]
  if h.length > limit then h.drop 1 else h

/-- handleEvent (prefix 42): parse the payload (errors caught and logged);
destructure `[eventName, payload]` and dispatch on the event name.
A non-array, non-string payload fails destructuring, which is also caught;
a string destructures into single characters, which match no event name. -/
def handleEvent (s : ClientState) (data : String) (now : Nat) :
    ClientState × Out :=
  match parseJson (data.drop 2) with
  | none => (s, Out.empty)
  | some ed =>
    match ed with
    | .arr elems =>
      let eventName := elems.head?
      let payload := (elems.drop 1).head?
      match eventName with
      | some (.str "setCookie") => requestMessageHistory s now
      | some (.str "newMessage") =>
        (match s.messageHistory with
         | .arr xs =>
           let m := payload.getD Json.null
           ({ s with
              messageHistory := .arr (pushMessage s.messageHistoryLimit xs m) },
            ⟨[], [.message m], []⟩)
         | _ => (s, Out.empty))
      | some (.str "userLeft") =>
        (s, ⟨[], [.userLeft (payload.getD Json.null)], []⟩)
      | _ => (s, Out.empty)
    | .str _ => (s, Out.empty)
    | _ => (s, Out.empty)

/-- The value (if any) the generic 43 handler assigns to messageHistory and
emits: first `ackData[0].messages` when `ackData[0]` and that field are
truthy, then `ackData[0]` itself when it is an array, then — fallback — the
first element of `ackData` whenever `ackData` is a nonempty array, whatever
that element is. -/
def genericAckHistory (ackData : Json) : Option Json :=
  let eventData := jsIndex0 ackData
  if truthyOpt eventData && truthyOpt (jsPropOpt eventData "messages") then
    jsPropOpt eventData "messages"
  else if isArrOpt eventData then eventData
  else if isNonEmptyArr ackData then jsIndex0 ackData
  else none

/-- handleEventWithAck (prefix 43): parse the payload (errors caught); when a
history value is recognized, assign it to the buffer and emit
messageHistory. -/
def handleEventWithAck (s : ClientState) (data : String) : ClientState × Out :=
  match parseJson (data.drop 2) with
  | none => (s, Out.empty)
  | some ackData =>
    match genericAckHistory ackData with
    | some h => ({ s with messageHistory := h }, ⟨[], [.messageHistory h], []⟩)
    | none => (s, Out.empty)

/-- Leading run of decimal digits of a frame (the regex `^(\d+)` match). -/
def leadingDigits (s : String) : String :=
  String.mk (s.data.takeWhile isDigitChar)

/-- handleNumberedAck (prefix 430–439): look up and delete the pending entry
for the last digit BEFORE parsing the payload (so a malformed payload still
consumes the entry), then dispatch on the pending entry's request kind. -/
def handleNumberedAck (s : ClientState) (data : String) (now : Nat) :
    ClientState × Out :=
  let mt := leadingDigits data
  let id := ((mt.drop 2).data.headD '0').toNat - 48
  let pending := getAck s.pendingAcks id
  let s1 := match pending with
            | some _ => { s with pendingAcks := delAck s.pendingAcks id }
            | none => s
  match parseJson (data.drop 3) with
  | none => (s1, Out.empty)
  | some ackData =>
    match pending with
    | some p =>
      if p.event = "joinRoom" then requestMessageHistory s1 now
      else if p.event = "getMessageHistory" then
        match jsIndex0 ackData with
        | some (.arr ms) =>
          ({ s1 with messageHistory := .arr ms },
           ⟨[], [.messageHistory (.arr ms)], []⟩)
        | _ => (s1, Out.empty)
      else if p.event = "sendMessage" then
        if truthyOpt (jsIndex0 ackData) &&
           truthyOpt (jsPropOpt (jsIndex0 ackData) "error") then
          (s1, ⟨[], [.serverError ((jsIndex0 ackData).getD Json.null)], []⟩)
        else (s1, Out.empty)
      else (s1, Out.empty)
    | none => (s1, Out.empty)

/-- handleMessage: dispatch on the leading digit run of the frame.  The only
uncaught exception path is handleConnect's JSON.parse. -/
def handleMessage (s : ClientState) (data : String) (now : Nat) :
    Except String (ClientState × Out) :=
  let mt := leadingDigits data
  if mt = "0" then handleConnect s data now
  else if mt = "40" then .ok (handleConnectedAck s now)
  else if mt = "41" then .ok (handleDisconnectF s data)
  else if mt = "42" then .ok (handleEvent s data now)
  else if mt = "43" then .ok (handleEventWithAck s data)
  else if mt.length = 3 && mt.take 2 = "43" then .ok (handleNumberedAck s data now)
  else if mt = "2" then .ok (s, ⟨sendFrames s "3", [], []⟩)
  else .ok (s, Out.empty)

/-- Process a list of inbound frames in order, propagating an uncaught
exception and concatenating side effects. -/
def runFrames (s : ClientState) (frames : List String) (now : Nat) :
    Except String (ClientState × Out) :=
  match frames with
  | [] => .ok (s, Out.empty)
  | f :: fs =>
    match handleMessage s f now with
    | .error e => .error e
    | .ok p =>
      match runFrames p.1 fs now with
      | .error e => .error e
      | .ok q => .ok (q.1, Out.app p.2 q.2)

/- ### Facade operations and transport lifecycle callbacks -/

/-- The transport 'connect' callback: store the connection, mark connected,
reset the reconnect counter, emit connected. -/
def onConnect (s : ClientState) : ClientState × Out :=
  ({ s with connectionOpen := true, isConnected := true,
            reconnectAttempts := 0 },
   ⟨[], [.connected], []⟩)

/-- The transport 'connectFailed' callback: emit error, run
attemptReconnect. -/
def onConnectFailed (s : ClientState) (err : String) : ClientState × Out :=
  let p := attemptReconnect s
  (p.1, ⟨p.2.frames, Ev.error err :: p.2.events, p.2.scheduled⟩)

/-- The transport 'close' callback: mark disconnected, emit disconnected
(bare), stop the keepalive timer, and unconditionally run attemptReconnect —
nothing distinguishes a caller-initiated closure. -/
def onClose (s : ClientState) : ClientState × Out :=
  let s1 := { s with isConnected := false, connectionOpen := false,
                     pingIntervalActive := none }
  let p := attemptReconnect s1
  (p.1, ⟨p.2.frames, Ev.disconnected none :: p.2.events, p.2.scheduled⟩)

/-- disconnect(): stop the keepalive timer and ask the transport to close.
It sets no flag and cancels no reconnect timer; the closure itself arrives
later as the asynchronous close callback (`onClose`). -/
def disconnect (s : ClientState) : ClientState :=
  { s with pingIntervalActive := none }

/-- sendMessage(text): when isConnected, allocate an ack ID, record the
pending sendMessage entry and send the frame; otherwise only
console.error — no event is emitted and nothing changes. -/
def sendMessage (s : ClientState) (text : String) (now : Nat) :
    ClientState × Out :=
  if s.isConnected then
    let id := s.ackId
    let s1 := { s with ackId := (s.ackId + 1) % 10,
                       pendingAcks := setAck s.pendingAcks id "sendMessage" now }
    (s1, ⟨sendFrames s1 (sendMessageFrame s id text), [], []⟩)
  else (s, Out.empty)

/-- getMessages on an array buffer: a truthy (nonzero) limit returns
`slice(-limit)`, i.e. the most recent `min limit length` entries; a zero or
absent limit returns a copy of the whole buffer. -/
def getMessagesArr (hist : List Json) (limit : Option Nat) : List Json :=
  match limit with
  | some l => if l ≠ 0 then hist.drop (hist.length - l) else hist
  | none => hist

/-- getMessages(limit?) on the client state; `none` when the runtime buffer
value is not an array (Array.prototype.slice would not apply). -/
def getMessages (s : ClientState) (limit : Option Nat) : Option (List Json) :=
  match s.messageHistory with
  | .arr xs => some (getMessagesArr xs limit)
  | _ => none

/-- A client state whose transport is open and connected, with an empty
buffer and no pending acknowledgments — the state right after the transport
'connect' callback ran. -/
def connectedState (roomId username : String) (limit : Nat) : ClientState :=
  { roomId := roomId, username := username, messageHistoryLimit := limit,
    messageHistory := .arr [], isConnected := true, connectionOpen := true,
    pingIntervalActive := none, reconnectAttempts := 0, ackId := 0,
    pendingAcks := [] }

end PumpChat
namespace PumpChat

/- ### Concrete states and traces used by the claims -/

/-- Iterated consecutive connection failures: the scheduled delays and events
of `n` successive attemptReconnect invocations. -/
def failureTrace : Nat → ClientState → List (List Nat × List Ev)
  | 0, _ => []
  | n + 1, s =>
    let p := attemptReconnect s
    (p.2.scheduled, p.2.events) :: failureTrace n p.1

/-- Whether an emitted event is an error event. -/
def isErrorEv : Ev → Bool
  | .error _ => true
  | _ => false

/-- A capacity-2 client with a pending getMessageHistory correlation at ID 1. -/
def fetchState2 : ClientState :=
  { connectedState "r" "u" 2 with pendingAcks := [(1, ⟨"getMessageHistory", 0⟩)] }

/-- The connected client at the start of the C2 frame scenario. -/
def c2Start : ClientState := connectedState "room1" "alice" 100

/-- The inbound frame sequence of the C2 scenario: connect info, handshake
ack, join success, history response with one message m1. -/
def c2Frames : List String :=
  ["0\x7b\"pingInterval\":1000\x7d", "40", "430[\x7b\"error\":null\x7d]",
   "431[[\x7b\"id\":\"m1\"\x7d]]"]

/-- A client whose transport is not connected. -/
def offlineState : ClientState :=
  { connectedState "room1" "alice" 100 with isConnected := false }

/-- A connected client holding exactly one buffered message. -/
def oneMsgState : ClientState :=
  { connectedState "room1" "alice" 100 with messageHistory := .arr [.num 5] }

/-- A capacity-100 client with a pending getMessageHistory correlation at
ID 1. -/
def fetchState100 : ClientState :=
  { connectedState "room9" "u9" 100 with pendingAcks := [(1, ⟨"getMessageHistory", 0⟩)] }

/-- A plain connected client for the generic-acknowledgment scenarios. -/
def genState : ClientState := connectedState "room9g" "ug" 100

/- ### Shared lemmas -/

/-- Folding handleNewMessage appends over a buffer within capacity keeps
exactly the most recent N entries. -/
theorem foldl_pushMessage (N : Nat) (ms : List Json) :
    ∀ hist : List Json, hist.length ≤ N →
      ms.foldl (pushMessage N) hist = (hist ++ ms).drop ((hist ++ ms).length - N) := by
  induction ms with
  | nil =>
    intro hist h
    simp [Nat.sub_eq_zero_of_le h]
  | cons m ms ih =>
    intro hist h
    rw [List.foldl_cons]
    rcases Nat.lt_or_ge hist.length N with hlt | hge
    · have hpush : pushMessage N hist m = hist ++ [m] := by
        unfold pushMessage
        rw [if_neg (by simp [List.length_append]; omega)]
      rw [hpush, ih _ (by simp [List.length_append]; omega)]
      simp [List.append_assoc]
    · have hpush : pushMessage N hist m = (hist ++ [m]).drop 1 := by
        unfold pushMessage
        rw [if_pos (by simp [List.length_append]; omega)]
      rw [hpush, ih _ (by simp [List.length_drop, List.length_append]; omega)]
      have hL : (((hist ++ [m]).drop 1) ++ ms).length = hist.length + ms.length := by
        simp
      rw [hL, ← List.drop_append_of_le_length
            (show (1 : Nat) ≤ (hist ++ [m]).length by simp),
          List.drop_drop]
      have hE : hist ++ m :: ms = (hist ++ [m]) ++ ms := by simp
      rw [hE]
      congr 1
      simp [List.length_append]
      omega

/- ### Claim theorems -/

/-- C1, counterexample: a history-fetch response with three messages arriving
at a capacity-2 client is assigned to the buffer as-is — afterwards the
buffer holds 3 > 2 messages, so the capacity bound does not hold for the
history-fetch population path. -/
theorem history_fetch_overflows_capacity :
    handleMessage fetchState2 "431[[1,2,3]]" 9
      = .ok ({ fetchState2 with
               pendingAcks := [],
               messageHistory := .arr [.num 1, .num 2, .num 3] },
             ⟨[], [.messageHistory (.arr [.num 1, .num 2, .num 3])], []⟩) ∧
    fetchState2.messageHistoryLimit = 2 ∧ ¬ ((3 : Nat) ≤ 2) := by
  refine ⟨by rfl, by rfl, by decide⟩

/-- C1, amended: appending via handleNewMessage preserves the capacity bound
and, starting from an empty buffer, M pushes leave exactly the last N
messages in arrival order (demonstrated through the machine for M = 3 > N = 2);
but a history-fetch acknowledgment replaces the buffer with the full response
array without local truncation (demonstrated for a 2-message response at
capacity 1). -/
theorem history_capacity_append_only :
    (∀ (N : Nat) (hist : List Json) (m : Json), hist.length ≤ N →
      (pushMessage N hist m).length ≤ N) ∧
    (∀ (N : Nat) (ms : List Json),
      ms.foldl (pushMessage N) [] = ms.drop (ms.length - N)) ∧
    ((runFrames (connectedState "rm" "us" 2)
        ["42[\"newMessage\",1]", "42[\"newMessage\",2]", "42[\"newMessage\",3]"] 4).map
          (fun p => p.1.messageHistory) = .ok (.arr [.num 2, .num 3])) ∧
    ((handleMessage { connectedState "rm" "us" 1 with
          pendingAcks := [(0, ⟨"getMessageHistory", 0⟩)] } "430[[7,8]]" 4).map
          (fun p => p.1.messageHistory) = .ok (.arr [.num 7, .num 8])) := by
  refine ⟨?_, ?_, by rfl, by rfl⟩
  · intro N hist m h
    unfold pushMessage
    dsimp only
    split
    · simp [List.length_append]
      omega
    · rename_i hc
      simp [List.length_append] at hc ⊢
      omega
  · intro N ms
    rw [foldl_pushMessage N ms [] (by simp)]
    simp

/-- C1 witness: the append bound applied at a concrete buffer. -/
theorem history_capacity_append_only_witness :
    ([Json.num 1].length ≤ 2) ∧ (pushMessage 2 [Json.num 1] (Json.num 2)).length ≤ 2 :=
  ⟨by decide, history_capacity_append_only.1 2 [Json.num 1] (Json.num 2) (by decide)⟩

/-- C2: processing the four-frame scenario emits exactly one event — the
history-ready (messageHistory) event whose payload is the single message m1 —
writes exactly the three expected outbound frames (handshake, joinRoom,
getMessageHistory), ends with the buffer holding m1, and stays connected.
In this client the FetchingHistory → Active transition is realized by
populating the buffer and emitting messageHistory, so the single emission is
the single transition to Active. -/
theorem join_then_history_single_active_transition :
    ((runFrames c2Start c2Frames 7).map (fun p => p.2.events)
      = .ok [Ev.messageHistory (.arr [.obj [("id", .str "m1")]])]) ∧
    ((runFrames c2Start c2Frames 7).map (fun p => p.1.messageHistory)
      = .ok (.arr [.obj [("id", .str "m1")]])) ∧
    ((runFrames c2Start c2Frames 7).map (fun p => p.1.isConnected) = .ok true) ∧
    ((runFrames c2Start c2Frames 7).map (fun p => p.2.frames)
      = .ok ["40\x7b\"origin\":\"https://pump.fun\",\"timestamp\":7,\"token\":null\x7d",
             "420[\"joinRoom\",\x7b\"roomId\":\"room1\",\"username\":\"alice\"\x7d]",
             "421[\"getMessageHistory\",\x7b\"roomId\":\"room1\",\"before\":null,\"limit\":100\x7d]"]) := by
  refine ⟨?_, ?_, ?_, ?_⟩ <;> rfl

/-- C3: disconnect() does stop the keepalive timer, but it sets no flag and
cancels nothing, and the close handler unconditionally calls
attemptReconnect — so the transport closure caused by disconnect() still
schedules a reconnect attempt (after 2000 ms from a clean counter),
contradicting the spec's requirement that a caller-initiated closure never
triggers a reconnect. -/
theorem disconnect_close_still_schedules_reconnect :
    (∀ s : ClientState, (disconnect s).pingIntervalActive = none ∧
      (disconnect s).messageHistory = s.messageHistory) ∧
    ((onClose (disconnect (connectedState "room1" "alice" 100))).2.scheduled = [2000]) ∧
    ((onClose (disconnect (connectedState "room1" "alice" 100))).2.events
      = [Ev.disconnected none, Ev.tryReconnect]) := by
  refine ⟨fun _ => ⟨rfl, rfl⟩, ?_, ?_⟩ <;> rfl

/-- C4, counterexample: sendMessage on a client whose transport is not
connected performs no write and leaves the correlator table unchanged, but
emits no event at all — in particular no error event is surfaced to the
caller, only console.error runs. -/
theorem sendMessage_disconnected_emits_no_event :
    (sendMessage offlineState "hello" 3).2.frames = [] ∧
    (sendMessage offlineState "hello" 3).1.pendingAcks = offlineState.pendingAcks ∧
    ((sendMessage offlineState "hello" 3).2.events.any isErrorEv) = false ∧
    (sendMessage offlineState "hello" 3).2.events = [] := by
  refine ⟨?_, ?_, ?_, ?_⟩ <;> rfl

/-- C4, amended: whenever the transport is not connected, sendMessage is a
complete no-op apart from a console log: no frame, no correlator change, no
event.  (When the transport is connected the guard passes even if the
join/history sequence has not completed, so the gate is connectivity, not
the spec's Active state.) -/
theorem sendMessage_not_connected_silent_noop :
    ∀ (s : ClientState) (text : String) (now : Nat),
      s.isConnected = false → sendMessage s text now = (s, Out.empty) := by
  intro s text now h
  simp [sendMessage, h, Out.empty]

/-- C4 witness: the amended no-op applied at the concrete offline client. -/
theorem sendMessage_not_connected_silent_noop_witness :
    offlineState.isConnected = false ∧
    sendMessage offlineState "hi" 0 = (offlineState, Out.empty) :=
  ⟨rfl, sendMessage_not_connected_silent_noop offlineState "hi" 0 rfl⟩

/-- C5: six consecutive failures from a fresh counter schedule exactly the
delays 2000, 4000, 8000, 16000, 30000 and then nothing, emitting
tryReconnect five times and exactly one maxReconnectAttemptsReached; and each
failure below the cap schedules min(1000 * 2^(attempts+1), 30000). -/
theorem reconnect_backoff_schedule :
    ((failureTrace 6 (connectedState "rc" "uc" 100)).map (fun p => p.1)
      = [[2000], [4000], [8000], [16000], [30000], []]) ∧
    ((failureTrace 6 (connectedState "rc" "uc" 100)).map (fun p => p.2)
      = [[Ev.tryReconnect], [Ev.tryReconnect], [Ev.tryReconnect], [Ev.tryReconnect],
         [Ev.tryReconnect], [Ev.maxReconnectAttemptsReached]]) ∧
    (∀ s : ClientState, s.reconnectAttempts < maxReconnectAttempts →
      (attemptReconnect s).2.scheduled
        = [min (1000 * 2 ^ (s.reconnectAttempts + 1)) 30000]) := by
  refine ⟨by rfl, by rfl, ?_⟩
  intro s h
  simp [attemptReconnect, h]

/-- C5 witness: the delay formula applied at a fresh counter. -/
theorem reconnect_backoff_schedule_witness :
    (connectedState "rc" "uc" 100).reconnectAttempts < maxReconnectAttempts ∧
    (attemptReconnect (connectedState "rc" "uc" 100)).2.scheduled
      = [min (1000 * 2 ^ 1) 30000] :=
  ⟨by decide, reconnect_backoff_schedule.2.2 _ (by decide)⟩

/-- C6, counterexample: getMessages(0) — a limit of 0 is ≤ the buffer length
1 — returns the whole one-message buffer instead of the most recent 0
entries, because `if (limit)` treats 0 as absent. -/
theorem getMessages_zero_limit_returns_whole_buffer :
    getMessages oneMsgState (some 0) = some [Json.num 5] ∧
    (0 : Nat) ≤ 1 ∧ [Json.num 5] ≠ ([] : List Json) := by
  refine ⟨by rfl, by decide, by simp⟩

/-- C6, amended: for 1 ≤ limit ≤ buffer length, getMessages(limit) returns
exactly the most recent limit entries in order; with limit absent it returns
the whole buffer; limit = 0 falls into the absent branch.  Both branches of
the source construct a fresh array (slice / spread), which the pure embedding
reflects by returning a value. -/
theorem getMessages_positive_limit_exact :
    (∀ (xs : List Json) (l : Nat), 1 ≤ l → l ≤ xs.length →
       getMessagesArr xs (some l) = xs.drop (xs.length - l) ∧
       (getMessagesArr xs (some l)).length = l) ∧
    (∀ xs : List Json, getMessagesArr xs none = xs) ∧
    (∀ (s : ClientState) (xs : List Json), s.messageHistory = .arr xs →
       getMessages s none = some xs) := by
  refine ⟨?_, fun xs => rfl, ?_⟩
  · intro xs l h1 h2
    have hval : getMessagesArr xs (some l) = xs.drop (xs.length - l) := by
      unfold getMessagesArr
      dsimp only
      rw [if_pos (show l ≠ 0 by omega)]
    refine ⟨hval, ?_⟩
    rw [hval]
    simp [List.length_drop]
    omega
  · intro s xs h
    simp [getMessages, h, getMessagesArr]

/-- C6 witness: the positive-limit contract applied at a concrete buffer. -/
theorem getMessages_positive_limit_exact_witness :
    ((1 : Nat) ≤ 2 ∧ (2 : Nat) ≤ ([Json.num 1, Json.num 2, Json.num 3] : List Json).length) ∧
    getMessagesArr [Json.num 1, Json.num 2, Json.num 3] (some 2) = [Json.num 2, Json.num 3] :=
  ⟨⟨by decide, by decide⟩,
   ((getMessages_positive_limit_exact.1 [Json.num 1, Json.num 2, Json.num 3] 2
      (by decide) (by decide)).1).trans rfl⟩

/-- C7, counterexample: a frame with the recognized prefix 0 whose payload is
malformed JSON throws out of the frame handler — handleConnect's JSON.parse
is not wrapped in try/catch — contradicting the claim that no recognized
prefix crashes on malformed JSON. -/
theorem malformed_connect_frame_throws :
    handleMessage (connectedState "room1" "alice" 100) "0\x7b" 5
      = .error "SyntaxError: Unexpected token in JSON" := by
  rfl

/-- C7, amended: malformed JSON after prefix 42 or generic 43 is caught with
no state change and no event; after a numbered 43<digit> prefix the parse
error is caught (no crash, no event) but the matching pending entry has
already been deleted; after prefix 41 the parse error is caught yet the
disconnect transition still runs (state change, events, reconnect); and
prefix 0 propagates the parse error out of the handler. -/
theorem malformed_payload_handling_by_prefix :
    (∀ (s : ClientState) (data : String) (now : Nat),
       parseJson (data.drop 2) = none → handleEvent s data now = (s, Out.empty)) ∧
    (∀ (s : ClientState) (data : String),
       parseJson (data.drop 2) = none → handleEventWithAck s data = (s, Out.empty)) ∧
    (handleMessage (connectedState "rm7" "u7" 100) "42\x7b" 9
      = .ok (connectedState "rm7" "u7" 100, Out.empty)) ∧
    (handleMessage (connectedState "rm7" "u7" 100) "43\x7b" 9
      = .ok (connectedState "rm7" "u7" 100, Out.empty)) ∧
    (handleMessage { connectedState "rm7" "u7" 100 with
        pendingAcks := [(2, ⟨"sendMessage", 1⟩)] } "432\x7b" 9
      = .ok (connectedState "rm7" "u7" 100, Out.empty)) ∧
    ((handleMessage (connectedState "rm7" "u7" 100) "41\x7b" 9).map
        (fun p => (p.1.isConnected, p.2.events.length, p.2.scheduled))
      = .ok (false, 2, [2000])) := by
  refine ⟨?_, ?_, by rfl, by rfl, by rfl, by rfl⟩
  · intro s data now h
    simp [handleEvent, h]
  · intro s data h
    simp [handleEventWithAck, h]

/-- C7 witness: the catch-and-discard contract applied to a concrete
malformed 42 frame. -/
theorem malformed_payload_handling_by_prefix_witness :
    parseJson (("42\x7b" : String).drop 2) = none ∧
    handleEvent (connectedState "w7" "w7u" 100) "42\x7b" 9
      = (connectedState "w7" "w7u" 100, Out.empty) :=
  ⟨rfl, malformed_payload_handling_by_prefix.1 (connectedState "w7" "w7u" 100) "42\x7b" 9 rfl⟩

/-- C8: the sweep period is 10 s and the TTL 30 s (in ms), and a sweep at
time `now` keeps exactly the table entries not created before `now - TTL`:
an entry survives iff it was in the table and `now - TTL ≤ timestamp`. -/
theorem stale_ack_sweep_exact :
    ackTimeoutMs = 30 * 1000 ∧ cleanupIntervalMs = 10 * 1000 ∧
    ∀ (now : Nat) (table : List (Nat × PendingAck)) (e : Nat × PendingAck),
      e ∈ cleanupStaleAcks now table ↔ e ∈ table ∧ now - ackTimeoutMs ≤ e.2.timestamp := by
  refine ⟨rfl, rfl, ?_⟩
  intro now table e
  unfold cleanupStaleAcks
  rw [List.mem_filter, decide_eq_true_eq]
  constructor
  · rintro ⟨h1, h2⟩
    refine ⟨h1, ?_⟩
    unfold ackTimeoutMs at h2 ⊢
    omega
  · rintro ⟨h1, h2⟩
    refine ⟨h1, ?_⟩
    unfold ackTimeoutMs at h2 ⊢
    omega

/-- C8 witness: the sweep characterization applied at a concrete table —
the entry created at 10000 survives a sweep at 40000, the one created at
9999 does not. -/
theorem stale_ack_sweep_exact_witness :
    ((2, (⟨"sendMessage", 10000⟩ : PendingAck))
        ∈ cleanupStaleAcks 40000 [(1, ⟨"joinRoom", 9999⟩), (2, ⟨"sendMessage", 10000⟩)]) ∧
    ¬ ((1, (⟨"joinRoom", 9999⟩ : PendingAck))
        ∈ cleanupStaleAcks 40000 [(1, ⟨"joinRoom", 9999⟩), (2, ⟨"sendMessage", 10000⟩)]) := by
  constructor
  · exact (stale_ack_sweep_exact.2.2 40000 _ _).mpr ⟨by simp, by norm_num [ackTimeoutMs]⟩
  · intro h
    have := ((stale_ack_sweep_exact.2.2 40000 _ _).mp h).2
    norm_num [ackTimeoutMs] at this

/-- C9, counterexample: a correlated 431 acknowledgment resolving to
getMessageHistory whose payload is an object with a messages array field
does NOT populate the buffer and emits nothing — only the pending entry is
consumed — contradicting the claim that both acknowledgment kinds accept all
three payload shapes. -/
theorem numbered_ack_object_shape_not_accepted :
    handleMessage fetchState100 "431[\x7b\"messages\":[\x7b\"id\":\"m1\"\x7d]\x7d]" 9
      = .ok ({ fetchState100 with pendingAcks := [] }, Out.empty) ∧
    ({ fetchState100 with pendingAcks := ([] : List (Nat × PendingAck)) }).messageHistory
      = Json.arr [] := by
  refine ⟨by rfl, by rfl⟩

/-- C9, amended: the correlated 43<digit> path resolving to
getMessageHistory populates the buffer and emits history-ready exactly when
the payload's first element is an array (any other first element — including
an object with a messages field — only consumes the pending entry); the
generic 43 path accepts a first-element object with a truthy messages field,
a first-element array, and — as a fallback — any nonempty array payload,
emitting history-ready with that first element even when it is not a message
array; a top-level object with a messages field is not accepted on either
path. -/
theorem history_ack_shape_acceptance :
    (∀ (s : ClientState) (data : String) (now : Nat) (ackData : Json)
        (ms : List Json) (t : Nat),
       leadingDigits data = "431" →
       parseJson (data.drop 3) = some ackData →
       getAck s.pendingAcks 1 = some ⟨"getMessageHistory", t⟩ →
       jsIndex0 ackData = some (.arr ms) →
       handleNumberedAck s data now
         = ({ s with
              pendingAcks := delAck s.pendingAcks 1,
              messageHistory := .arr ms },
            ⟨[], [.messageHistory (.arr ms)], []⟩)) ∧
    (∀ (s : ClientState) (data : String) (now : Nat) (ackData : Json) (t : Nat),
       leadingDigits data = "431" →
       parseJson (data.drop 3) = some ackData →
       getAck s.pendingAcks 1 = some ⟨"getMessageHistory", t⟩ →
       isArrOpt (jsIndex0 ackData) = false →
       handleNumberedAck s data now
         = ({ s with pendingAcks := delAck s.pendingAcks 1 }, Out.empty)) ∧
    (handleEventWithAck genState "43[\x7b\"messages\":[\x7b\"id\":\"m1\"\x7d]\x7d]"
      = ({ genState with messageHistory := .arr [.obj [("id", .str "m1")]] },
         ⟨[], [.messageHistory (.arr [.obj [("id", .str "m1")]])], []⟩)) ∧
    (handleEventWithAck genState "43[[\x7b\"id\":\"m1\"\x7d]]"
      = ({ genState with messageHistory := .arr [.obj [("id", .str "m1")]] },
         ⟨[], [.messageHistory (.arr [.obj [("id", .str "m1")]])], []⟩)) ∧
    (handleEventWithAck genState "43[\"x\"]"
      = ({ genState with messageHistory := .str "x" },
         ⟨[], [.messageHistory (.str "x")], []⟩)) ∧
    (handleEventWithAck genState "43\x7b\"messages\":[\x7b\"id\":\"m1\"\x7d]\x7d"
      = (genState, Out.empty)) := by
  refine ⟨?_, ?_, by rfl, by rfl, by rfl, by rfl⟩
  · intro s data now ackData ms t hld hp hg ha
    simp only [handleNumberedAck, hld]
    simp only [show (((("431" : String).drop 2).data.headD '0').toNat - 48 : Nat) = 1 from rfl]
    simp only [hg, hp, ha]
    norm_num
    intro hcontra
    exact absurd hcontra (by decide)
  · intro s data now ackData t hld hp hg ha
    simp only [handleNumberedAck, hld]
    simp only [show (((("431" : String).drop 2).data.headD '0').toNat - 48 : Nat) = 1 from rfl]
    simp only [hg, hp]
    rw [if_neg (by decide)]
    cases hj : jsIndex0 ackData with
    | none => rfl
    | some v =>
      cases v <;> simp_all [isArrOpt]

/-- C9 witness: the correlated-path acceptance applied at a concrete frame
carrying the wrapped-array shape. -/
theorem history_ack_shape_acceptance_witness :
    (leadingDigits "431[[5]]" = "431" ∧
     parseJson (("431[[5]]" : String).drop 3) = some (.arr [.arr [.num 5]]) ∧
     getAck fetchState100.pendingAcks 1 = some ⟨"getMessageHistory", 0⟩ ∧
     jsIndex0 (Json.arr [.arr [.num 5]]) = some (.arr [.num 5])) ∧
    handleNumberedAck fetchState100 "431[[5]]" 9
      = ({ fetchState100 with
           pendingAcks := delAck fetchState100.pendingAcks 1,
           messageHistory := .arr [.num 5] },
         ⟨[], [.messageHistory (.arr [.num 5])], []⟩) :=
  ⟨⟨rfl, rfl, rfl, rfl⟩,
   history_ack_shape_acceptance.1 fetchState100 "431[[5]]" 9 _ [.num 5] 0
     rfl rfl rfl rfl⟩

/-- C10: disconnect() touches neither the history buffer nor the correlator
table — getMessages returns the same result before and after, and every
pending entry survives; the same holds across the asynchronous close
callback that the closure triggers. -/
theorem disconnect_preserves_buffer_and_acks :
    ∀ (s : ClientState) (limit : Option Nat),
      getMessages (disconnect s) limit = getMessages s limit ∧
      (disconnect s).pendingAcks = s.pendingAcks ∧
      (onClose (disconnect s)).1.messageHistory = s.messageHistory ∧
      (onClose (disconnect s)).1.pendingAcks = s.pendingAcks := by
  intro s limit
  refine ⟨rfl, rfl, ?_, ?_⟩ <;>
    · unfold onClose attemptReconnect disconnect
      dsimp only
      split <;> rfl

end PumpChat
